import Mathlib

/- Verification of the JsonRpcClient request/response correlation and
message-classification engine (src/JsonRpcClient.js) against its
natural-language specification.  JavaScript values that the engine inspects by
shape are embedded as the inductive type JsValue; the mutable `data` cells of
the shared error singletons are carried in an explicit ClientState.  All
definitions below are translated from the source file, except the ones whose
doc comment starts with `Modelled from the spec:`. -/

namespace JsonRpcClient

mutual

/-- Embedding of the JavaScript values the client inspects: null, undefined,
booleans, numbers, strings and plain objects (association lists of fields).
Object identity (reference equality) is not representable; the theorems below
only compare primitive values where JavaScript strict equality is structural. -/
inductive JsValue where
  | vNull
  | vUndefined
  | vBool (b : Bool)
  | vNum (n : Int)
  | vStr (s : String)
  | vObj (fields : JsFields)
deriving DecidableEq

/-- Field list of a JavaScript object literal (key, value pairs in order). -/
inductive JsFields where
  | nil
  | cons (key : String) (value : JsValue) (rest : JsFields)
deriving DecidableEq

end

/-- Embedding of the JavaScript `k in o` membership test on an object's own
fields (the objects the client builds and receives carry only own enumerable
properties). -/
def JsFields.hasKey : JsFields → String → Bool
  | .nil, _ => false
  | .cons key _ rest, k => key == k || rest.hasKey k

/-- Embedding of property read `o.k` on an object: the first binding of the
key, or undefined when the key is absent. -/
def JsFields.getKey : JsFields → String → JsValue
  | .nil, _ => .vUndefined
  | .cons key v rest, k => if key == k then v else rest.getKey k

/-- Embedding of the JavaScript test `typeof m === "object"`.  Note that in
JavaScript `typeof null` is "object", so null passes this test. -/
def jsTypeofIsObject : JsValue → Bool
  | .vNull => true
  | .vObj _ => true
  | _ => false

/-- Embedding of JavaScript strict equality `===` on the values compared by
the client (message and request ids, which the data model restricts to
primitives).  Two objects compare by reference in JavaScript; distinct object
values are modelled as unequal, and no theorem below instantiates an object
id. -/
def jsStrictEq : JsValue → JsValue → Bool
  | .vNull, .vNull => true
  | .vUndefined, .vUndefined => true
  | .vBool a, .vBool b => a == b
  | .vNum a, .vNum b => a == b
  | .vStr a, .vStr b => a == b
  | _, _ => false

/-- Runtime errors the embedded code can raise: the TypeError thrown by the
`in` operator or by property access on null or undefined. -/
inductive JsRuntimeError where
  | typeError
deriving DecidableEq

deriving instance DecidableEq for Except

/-- Embedding of property access `m.k`: throws TypeError on null and
undefined, reads the field on an object, and yields undefined on other
primitives (which own none of the property names the client reads). -/
def jsGetProp : JsValue → String → Except JsRuntimeError JsValue
  | .vNull, _ => .error .typeError
  | .vUndefined, _ => .error .typeError
  | .vObj fs, k => .ok (fs.getKey k)
  | _, _ => .ok .vUndefined

/-- The tagged variants the client classifies inbound traffic into, mirroring
the JsonRpcResponseResult, JsonRpcResponseError, JsonRpcRequest and
JsonRpcEvent constructors of the external json-rpc package (assumed
value-preserving; the `error` component stores the raw value handed to
JsonRpcError). -/
inductive Classified where
  | responseResult (id result : JsValue)
  | responseError (id error : JsValue)
  | request (id method params : JsValue)
  | event (method params : JsValue)
deriving DecidableEq

/-- Embedding of the classification performed by onMessage on a message the
tracker did not match (src lines 190-221): inside `typeof m === "object"`,
when an `id` field is present the three independent `if` statements write
`msg` in the order result, error, method (each later write overwriting the
earlier one); without an `id` field an Event is built from `m.method` and
`m.params` whether or not they exist.  For m = null the guard passes (typeof
null is "object") and the `"id" in m` test throws a TypeError. -/
def onMessageClassify (m : JsValue) : Except JsRuntimeError (Option Classified) :=
  if jsTypeofIsObject m then
    match m with
    | .vObj fs =>
      .ok (if fs.hasKey "id" then
            let afterResult : Option Classified :=
              if fs.hasKey "result" then
                some (.responseResult (fs.getKey "id") (fs.getKey "result"))
              else
                none
            let afterError : Option Classified :=
              if fs.hasKey "error" then
                some (.responseError (fs.getKey "id") (fs.getKey "error"))
              else
                afterResult
            if fs.hasKey "method" then
              some (.request (fs.getKey "id") (fs.getKey "method") (fs.getKey "params"))
            else
              afterError
          else
            some (.event (fs.getKey "method") (fs.getKey "params")))
    | _ => .error .typeError
  else
    .ok none

/-- The emissions onMessage performs on the "message" channel for an unmatched
inbound message: `emitter.emit("message", msg)` runs unconditionally at the
end of the unmatched branch (src line 223), so exactly one emission occurs,
its payload being the classified variant or undefined (none) when
classification produced nothing.  A thrown TypeError aborts before the
emission. -/
def onMessageUnmatchedEmits (m : JsValue) :
    Except JsRuntimeError (List (Option Classified)) :=
  match onMessageClassify m with
  | .ok msg => .ok [msg]
  | .error e => .error e

/-- Whether classification of m terminates normally (no runtime error). -/
def classifyRuns (m : JsValue) : Bool :=
  match onMessageClassify m with
  | .ok _ => true
  | .error _ => false

/-- Outcome the filter function applies to the pending entry it matched:
calling the tracker-supplied resolve or reject continuation with the
classified message. -/
inductive FilterAction where
  | resolveWith (msg : Classified)
  | rejectWith (msg : Classified)
deriving DecidableEq

/-- Result of one filterMessage run: raw messages re-emitted on the "message"
channel (when enableCallbacks is set) and the action taken on the pending
entry, if any. -/
structure FilterResult where
  emitted : List JsValue
  action : Option FilterAction
deriving DecidableEq

/-- Embedding of filterMessage (src lines 256-299), executed by the tracker
for an inbound raw message against a pending entry whose registered request
has id currentId: returns early when the message is undefined or its id is
not strictly equal to the entry's id; otherwise builds ResponseResult then
ResponseError (error overwriting), re-emits the raw message when
enableCallbacks, and rejects when an error field was present, else
resolves.  The `"result" in m` test throws on a non-object m that survived
the id guard. -/
def filterMessage (message : Option JsValue) (currentId : JsValue)
    (enableCallbacks : Bool) : Except JsRuntimeError FilterResult :=
  match message with
  | none => .ok ⟨[], none⟩
  | some m =>
    match jsGetProp m "id" with
    | .error e => .error e
    | .ok mid =>
      if jsStrictEq mid currentId = false then
        .ok ⟨[], none⟩
      else
        match m with
        | .vObj fs =>
          let msgAfterResult : Option Classified :=
            if fs.hasKey "result" then
              some (.responseResult (fs.getKey "id") (fs.getKey "result"))
            else
              none
          let err : Bool := fs.hasKey "error"
          let msg : Option Classified :=
            if err then
              some (.responseError (fs.getKey "id") (fs.getKey "error"))
            else
              msgAfterResult
          match msg with
          | none => .ok ⟨[], none⟩
          | some v =>
            .ok ⟨if enableCallbacks then [m] else [],
                 some (if err then .rejectWith v else .resolveWith v)⟩
        | _ => .error .typeError

/-- An outbound JsonRpcRequest as documented for sendRequest: an id (a
primitive JavaScript value), a method and params. -/
structure Req where
  id : JsValue
  method : String
  params : JsValue
deriving DecidableEq

/-- A JsonRpcError value: code, message and the writable data cell that the
client mutates on the TIMEOUT_EXCEEDED singleton. -/
structure ErrorValue where
  code : Int
  message : String
  data : Option Req
deriving DecidableEq

/-- JsonRpcClient.ERRORS.NO_ERROR (src lines 307-311); its data cell is never
written by the client. -/
def noErrorVal : ErrorValue := ⟨-32000, "No error", none⟩

/-- JsonRpcClient.ERRORS.TIMEOUT_EXCEEDED (src lines 314-318) at a given
state of its writable data cell. -/
def timeoutExceededVal (d : Option Req) : ErrorValue :=
  ⟨-32001, "Waiting for response timeout exceeded", d⟩

/-- JsonRpcClient.ERRORS.INVALID_STATE_ERR (src lines 321-325) at a given
state of its writable data cell. -/
def invalidStateErrVal (d : Option Req) : ErrorValue :=
  ⟨-32002, "WebSocket is already in CLOSING or CLOSED state", d⟩

/-- A pending correlation registered with the message tracker by sendRequest:
the request, and the enableCallbacks flag passed in params.  Its
timeoutRejectWith is always the one shared TIMEOUT_EXCEEDED singleton (the
local `rejectWith` aliases it), so the data the entry's timeout rejection
carries is read from the singleton's cell in ClientState, not stored per
entry. -/
structure PendingEntry where
  message : Req
  enableCallbacks : Bool
deriving DecidableEq

/-- The mutable state sendRequest and sendEvent touch: the writable data cells
of the two error singletons, the pending correlations registered with the
tracker, and the messages handed to the transport's send. -/
structure ClientState where
  timeoutExceededData : Option Req
  invalidStateErrData : Option Req
  pending : List PendingEntry
  sentMessages : List Req
deriving DecidableEq

/-- State at module load: both data cells undefined, nothing pending or
sent. -/
def initialState : ClientState := ⟨none, none, [], []⟩

/-- A JsonRpcResponseError value as built in sendRequest's disconnected
branch: an id and the error it wraps. -/
structure RpcRespErr where
  id : JsValue
  error : ErrorValue
deriving DecidableEq

/-- What sendRequest returns: the tracker's pending promise, or a
synchronously rejected promise carrying a JsonRpcResponseError. -/
inductive SendRequestOutcome where
  | pendingRegistered
  | rejectedWith (resp : RpcRespErr)
deriving DecidableEq

/-- Embedding of sendRequest (src lines 121-150).  The local
`rejectWith = JsonRpcClient.ERRORS.TIMEOUT_EXCEEDED` aliases the module-level
singleton, so `rejectWith.data = req` writes the shared cell before the
connectivity check runs.  When connected, the request is registered with the
tracker and handed to the transport's send; otherwise a rejected promise is
returned wrapping INVALID_STATE_ERR (whose own data cell this path does not
touch) with the request's id. -/
def sendRequest (s : ClientState) (connected : Bool) (req : Req)
    (enableCallbacks : Bool) : ClientState × SendRequestOutcome :=
  let s1 : ClientState := { s with timeoutExceededData := some req }
  if connected then
    ({ s1 with
        pending := s1.pending ++ [⟨req, enableCallbacks⟩],
        sentMessages := s1.sentMessages ++ [req] },
      .pendingRegistered)
  else
    (s1, .rejectedWith ⟨req.id, invalidStateErrVal s1.invalidStateErrData⟩)

/-- Embedding of sendEvent (src lines 162-175): a plain synchronous function
that, when connected, hands evt to the transport's send and returns NO_ERROR,
and otherwise returns INVALID_STATE_ERR without sending.  The first component
lists the sends performed. -/
def sendEvent (s : ClientState) (connected : Bool) (evt : JsValue) :
    List JsValue × ErrorValue :=
  if connected then
    ([evt], noErrorVal)
  else
    ([], invalidStateErrVal s.invalidStateErrData)

/-- Lifecycle events the client publishes through the emitter. -/
inductive LifecycleEvent where
  | connecting
  | connected
  | disconnected
deriving DecidableEq

/-- Embedding of connect (src lines 90-108) as a trace semantics: given the
outcome of the transport's own connect, the list of lifecycle events emitted
in order, and the result of the returned promise.  "connecting" is emitted
synchronously before the transport is invoked; on success "connected" is
emitted and then the promise resolves; on failure the promise rejects with
the transport's error verbatim and nothing further is emitted. -/
def connect {α : Type} (transportOutcome : Except α Unit) :
    List LifecycleEvent × Except α Unit :=
  match transportOutcome with
  | .ok _ => ([.connecting, .connected], .ok ())
  | .error e => ([.connecting], .error e)

/-- Modelled from the spec: the CorrelationTracker collaborator is the
external message-tracker package, not part of src; per the spec's contract,
register creates a pending entry whose deadline is now plus the configured
messageTimeout. -/
structure TrackedEntry where
  message : Req
  registeredAt : Nat
  deadline : Nat
deriving DecidableEq

/-- Modelled from the spec: registration of a request at time now with
timeout T places its deadline at now + T. -/
def trackerRegister (now timeout : Nat) (r : Req) : TrackedEntry :=
  ⟨r, now, now + timeout⟩

/-- Modelled from the spec: the periodic sweep rejects an entry at a tick at
time now exactly when the entry's deadline has been reached, rejecting it
with its timeoutRejectWith value. -/
def sweepFires (e : TrackedEntry) (now : Nat) : Bool :=
  decide (e.deadline ≤ now)

/-- Helper: filterMessage on a matching object carrying a result field and no
error field resolves with the ResponseResult built from the message. -/
theorem filterMessage_obj_result (fs : JsFields) (currentId : JsValue) (cb : Bool)
    (hmatch : jsStrictEq (fs.getKey "id") currentId = true)
    (hres : fs.hasKey "result" = true)
    (herr : fs.hasKey "error" = false) :
    filterMessage (some (.vObj fs)) currentId cb =
      .ok ⟨if cb then [.vObj fs] else [],
          some (.resolveWith (.responseResult (fs.getKey "id") (fs.getKey "result")))⟩ := by
  simp [filterMessage, jsGetProp, hmatch, hres, herr]

/-- Helper: filterMessage on a matching object carrying an error field rejects
with the ResponseError built from the message, whether or not a result field
is also present (the error classification overwrites). -/
theorem filterMessage_obj_error (fs : JsFields) (currentId : JsValue) (cb : Bool)
    (hmatch : jsStrictEq (fs.getKey "id") currentId = true)
    (herr : fs.hasKey "error" = true) :
    filterMessage (some (.vObj fs)) currentId cb =
      .ok ⟨if cb then [.vObj fs] else [],
          some (.rejectWith (.responseError (fs.getKey "id") (fs.getKey "error")))⟩ := by
  simp [filterMessage, jsGetProp, hmatch, herr]

/-- Helper: filterMessage takes no action on a message whose id is not
strictly equal to the pending entry's id. -/
theorem filterMessage_id_mismatch (m : JsValue) (currentId : JsValue) (cb : Bool)
    (mid : JsValue) (hgp : jsGetProp m "id" = .ok mid)
    (hne : jsStrictEq mid currentId = false) :
    filterMessage (some m) currentId cb = .ok ⟨[], none⟩ := by
  simp [filterMessage, hgp, hne]

/-- Helper: in the unmatched-message classifier, an object with an id and a
method classifies as a Request regardless of result or error presence, since
the method branch is the last write. -/
theorem onMessageClassify_method (fs : JsFields)
    (hid : fs.hasKey "id" = true) (hm : fs.hasKey "method" = true) :
    onMessageClassify (.vObj fs) =
      .ok (some (.request (fs.getKey "id") (fs.getKey "method") (fs.getKey "params"))) := by
  simp [onMessageClassify, jsTypeofIsObject, hid, hm]

/-- Helper: an object with an id, an error and no method classifies as a
ResponseError, overriding any result classification. -/
theorem onMessageClassify_error_wins (fs : JsFields)
    (hid : fs.hasKey "id" = true) (hm : fs.hasKey "method" = false)
    (herr : fs.hasKey "error" = true) :
    onMessageClassify (.vObj fs) =
      .ok (some (.responseError (fs.getKey "id") (fs.getKey "error"))) := by
  simp [onMessageClassify, jsTypeofIsObject, hid, hm, herr]

/-- Helper: an object with an id and a result, with neither error nor method,
classifies as a ResponseResult. -/
theorem onMessageClassify_result_only (fs : JsFields)
    (hid : fs.hasKey "id" = true) (hm : fs.hasKey "method" = false)
    (herr : fs.hasKey "error" = false) (hres : fs.hasKey "result" = true) :
    onMessageClassify (.vObj fs) =
      .ok (some (.responseResult (fs.getKey "id") (fs.getKey "result"))) := by
  simp [onMessageClassify, jsTypeofIsObject, hid, hm, herr, hres]

/-- C1 (counterexample): sendRequest on a disconnected transport rejects
synchronously with a ResponseError wrapping INVALID_STATE_ERR, but the
error's data field is NOT the request — the disconnected path never writes
INVALID_STATE_ERR.data, which is still undefined (none), refuting the claim
that data equals req. -/
theorem C1_counterexample :
    (sendRequest initialState false ⟨.vStr "1", "test", .vUndefined⟩ false).2 =
      .rejectedWith ⟨.vStr "1", invalidStateErrVal none⟩ ∧
    (invalidStateErrVal none).data ≠ some ⟨.vStr "1", "test", .vUndefined⟩ := by
  exact ⟨rfl, by decide⟩

/-- C1 (amended): for every request req, sendRequest while disconnected
produces a synchronously rejected result carrying a ResponseError with the
request's id wrapping INVALID_STATE_ERR, whose data field is left at its
prior value (never set to req); no tracker registration and no send occur,
the only state change being the write of req into the shared
TIMEOUT_EXCEEDED data cell performed before the connectivity check. -/
theorem C1_disconnected_sendRequest (s : ClientState) (req : Req) (cb : Bool) :
    sendRequest s false req cb =
      ({ s with timeoutExceededData := some req },
        .rejectedWith ⟨req.id, invalidStateErrVal s.invalidStateErrData⟩) := rfl

/-- C1 witness: the amended statement evaluated at a concrete request from
the initial state. -/
theorem C1_disconnected_sendRequest_wit :
    sendRequest initialState false ⟨.vStr "1", "test", .vUndefined⟩ false =
      ({ initialState with timeoutExceededData := some ⟨.vStr "1", "test", .vUndefined⟩ },
        .rejectedWith ⟨.vStr "1", invalidStateErrVal none⟩) :=
  C1_disconnected_sendRequest initialState ⟨.vStr "1", "test", .vUndefined⟩ false

/-- C2 (counterexample): an inbound object carrying id, result AND method is
classified as a Request, not as the ResponseResult the claim's step (a)
requires — the method branch is checked unconditionally and overwrites. -/
theorem C2_counterexample :
    onMessageClassify (.vObj (.cons "id" (.vNum 1) (.cons "result" (.vNum 2)
        (.cons "method" (.vStr "m") .nil)))) =
      .ok (some (.request (.vNum 1) (.vStr "m") .vUndefined)) ∧
    onMessageClassify (.vObj (.cons "id" (.vNum 1) (.cons "result" (.vNum 2)
        (.cons "method" (.vStr "m") .nil)))) ≠
      .ok (some (.responseResult (.vNum 1) (.vNum 2))) := by decide

/-- C2 (amended): for every inbound object with an id, the method field is
always consulted and, when present, overrides the result/error
classification, yielding Request{id, method, params}; ResponseError requires
error present and method absent; ResponseResult requires result present with
both error and method absent. -/
theorem C2_classification_order (fs : JsFields) (hid : fs.hasKey "id" = true) :
    (fs.hasKey "method" = true →
      onMessageClassify (.vObj fs) =
        .ok (some (.request (fs.getKey "id") (fs.getKey "method") (fs.getKey "params")))) ∧
    (fs.hasKey "method" = false → fs.hasKey "error" = true →
      onMessageClassify (.vObj fs) =
        .ok (some (.responseError (fs.getKey "id") (fs.getKey "error")))) ∧
    (fs.hasKey "method" = false → fs.hasKey "error" = false →
      fs.hasKey "result" = true →
      onMessageClassify (.vObj fs) =
        .ok (some (.responseResult (fs.getKey "id") (fs.getKey "result")))) :=
  ⟨fun hm => onMessageClassify_method fs hid hm,
   fun hm herr => onMessageClassify_error_wins fs hid hm herr,
   fun hm herr hres => onMessageClassify_result_only fs hid hm herr hres⟩

/-- C2 witness: the amended statement evaluated on a concrete object with id
and method. -/
theorem C2_classification_order_wit :
    JsFields.hasKey (.cons "id" (.vNum 3) (.cons "method" (.vStr "f") .nil)) "id" = true ∧
    onMessageClassify (.vObj (.cons "id" (.vNum 3) (.cons "method" (.vStr "f") .nil))) =
      .ok (some (.request (.vNum 3) (.vStr "f") .vUndefined)) :=
  ⟨by decide, (C2_classification_order (.cons "id" (.vNum 3)
      (.cons "method" (.vStr "f") .nil)) (by decide)).1 (by decide)⟩

/-- C3 (counterexample): an unmatched non-object message classifies to
nothing, yet onMessage still performs one emission on the message channel
with undefined payload — the emit call runs unconditionally at the end of
the unmatched branch, so the message is not silently dropped as claimed. -/
theorem C3_counterexample :
    onMessageUnmatchedEmits (.vStr "x") = .ok [none] ∧
    onMessageUnmatchedEmits (.vStr "x") ≠ .ok [] := by decide

/-- C3 (amended): every unmatched inbound message that is not an object, or
that is an object with an id but neither result, error, nor method,
classifies to nothing — but onMessage still emits exactly one message event
whose payload is undefined, rather than emitting nothing.  (Objects without
an id are instead classified as Events even when method is absent, and null
raises a TypeError.) -/
theorem C3_unclassified_still_emitted (m : JsValue)
    (h : jsTypeofIsObject m = false ∨
      ∃ fs, m = .vObj fs ∧ fs.hasKey "id" = true ∧ fs.hasKey "result" = false ∧
        fs.hasKey "error" = false ∧ fs.hasKey "method" = false) :
    onMessageUnmatchedEmits m = .ok [none] := by
  rcases h with h | ⟨fs, rfl, hid, hres, herr, hm⟩
  · simp [onMessageUnmatchedEmits, onMessageClassify, h]
  · simp [onMessageUnmatchedEmits, onMessageClassify, jsTypeofIsObject,
      hid, hres, herr, hm]

/-- C3 witness: the amended statement evaluated at a concrete non-object
message. -/
theorem C3_unclassified_still_emitted_wit :
    onMessageUnmatchedEmits (.vNum 7) = .ok [none] :=
  C3_unclassified_still_emitted (.vNum 7) (Or.inl (by decide))

/-- C4 (counterexample): with two requests outstanding concurrently, the
shared TIMEOUT_EXCEEDED singleton every pending entry rejects with carries
the second request as data, so the timeout rejection for the still-pending
first request does not carry the first request, refuting the claim for
concurrent requests. -/
theorem C4_counterexample :
    ((sendRequest ((sendRequest initialState true ⟨.vStr "1", "a", .vUndefined⟩ false).1)
        true ⟨.vStr "2", "b", .vUndefined⟩ false).1).pending.map PendingEntry.message =
      [⟨.vStr "1", "a", .vUndefined⟩, ⟨.vStr "2", "b", .vUndefined⟩] ∧
    (timeoutExceededVal
      (((sendRequest ((sendRequest initialState true ⟨.vStr "1", "a", .vUndefined⟩ false).1)
          true ⟨.vStr "2", "b", .vUndefined⟩ false).1).timeoutExceededData)).data =
      some ⟨.vStr "2", "b", .vUndefined⟩ ∧
    some (⟨.vStr "2", "b", .vUndefined⟩ : Req) ≠ some (⟨.vStr "1", "a", .vUndefined⟩ : Req) := by
  decide

/-- C4 (amended): a request registered with messageTimeout T whose sweep
fires is rejected no earlier than T milliseconds after registration, with
TIMEOUT_EXCEEDED (code -32001); its data field equals the request passed to
the MOST RECENT sendRequest call, which is req itself only when no later
sendRequest intervened — concurrent outstanding requests all share the one
singleton data cell. -/
theorem C4_timeout_data_last_request (t0 T t : Nat) (r : Req) (s : ClientState)
    (cb : Bool) (hfire : sweepFires (trackerRegister t0 T r) t = true) :
    T ≤ t - t0 ∧
    timeoutExceededVal (((sendRequest s true r cb).1).timeoutExceededData) =
      ⟨-32001, "Waiting for response timeout exceeded", some r⟩ := by
  constructor
  · have h : t0 + T ≤ t := by simpa [sweepFires, trackerRegister] using hfire
    omega
  · rfl

/-- C4 witness: the amended statement evaluated at a concrete registration
time, timeout and sweep tick. -/
theorem C4_timeout_data_last_request_wit :
    sweepFires (trackerRegister 0 5 ⟨.vStr "1", "a", .vUndefined⟩) 5 = true ∧
    (5 ≤ 5 - 0 ∧
      timeoutExceededVal (((sendRequest initialState true ⟨.vStr "1", "a", .vUndefined⟩
          false).1).timeoutExceededData) =
        ⟨-32001, "Waiting for response timeout exceeded",
          some ⟨.vStr "1", "a", .vUndefined⟩⟩) :=
  ⟨by decide, C4_timeout_data_last_request 0 5 5 ⟨.vStr "1", "a", .vUndefined⟩
    initialState false (by decide)⟩

/-- C5: an inbound object carrying an id together with both result and error
fields (and no method field) classifies as ResponseError in the
unmatched-message classifier, and in the match filter for a pending request
with the same id the filter rejects with that ResponseError — error presence
overrides the earlier ResponseResult classification in both places. -/
theorem C5_error_precedence (fs : JsFields) (cb : Bool) (currentId : JsValue)
    (hid : fs.hasKey "id" = true) (_hres : fs.hasKey "result" = true)
    (herr : fs.hasKey "error" = true) (hm : fs.hasKey "method" = false)
    (hmatch : jsStrictEq (fs.getKey "id") currentId = true) :
    onMessageClassify (.vObj fs) =
      .ok (some (.responseError (fs.getKey "id") (fs.getKey "error"))) ∧
    filterMessage (some (.vObj fs)) currentId cb =
      .ok ⟨if cb then [.vObj fs] else [],
          some (.rejectWith (.responseError (fs.getKey "id") (fs.getKey "error")))⟩ :=
  ⟨onMessageClassify_error_wins fs hid hm herr,
   filterMessage_obj_error fs currentId cb hmatch herr⟩

/-- C5 witness: the statement evaluated on a concrete object carrying both
result and error. -/
theorem C5_error_precedence_wit :
    onMessageClassify (.vObj (.cons "id" (.vNum 1) (.cons "result" (.vNum 2)
        (.cons "error" (.vStr "e") .nil)))) =
      .ok (some (.responseError (.vNum 1) (.vStr "e"))) ∧
    filterMessage (some (.vObj (.cons "id" (.vNum 1) (.cons "result" (.vNum 2)
        (.cons "error" (.vStr "e") .nil))))) (.vNum 1) false =
      .ok ⟨[], some (.rejectWith (.responseError (.vNum 1) (.vStr "e")))⟩ :=
  C5_error_precedence (.cons "id" (.vNum 1) (.cons "result" (.vNum 2)
    (.cons "error" (.vStr "e") .nil))) false (.vNum 1)
    (by decide) (by decide) (by decide) (by decide) (by decide)

/-- C6 (counterexample): classification is not total — for m = null the
typeof test passes (typeof null is "object" in JavaScript) and the id
membership test raises a TypeError, so onMessage does not terminate
normally on null. -/
theorem C6_counterexample :
    onMessageClassify .vNull = .error .typeError ∧ classifyRuns .vNull = false := by
  decide

/-- C6 (amended): the unmatched-message classification is a pure function
that terminates normally, with a classified variant or nothing, on every raw
input value EXCEPT null, where it raises a TypeError. -/
theorem C6_total_except_null (m : JsValue) (h : m ≠ .vNull) :
    classifyRuns m = true := by
  cases m with
  | vNull => exact absurd rfl h
  | vUndefined => rfl
  | vBool b => rfl
  | vNum n => rfl
  | vStr s => rfl
  | vObj fs => rfl

/-- C6 witness: the amended statement evaluated at a concrete non-null
value. -/
theorem C6_total_except_null_wit :
    (JsValue.vStr "x") ≠ .vNull ∧ classifyRuns (.vStr "x") = true :=
  ⟨by decide, C6_total_except_null (.vStr "x") (by decide)⟩

/-- C7: sendRequest on a connected transport registers the request with the
tracker and hands it to the transport's send, and the registered filter
resolves the pending entry with a ResponseResult on an inbound
{id: req.id, result: R}, rejects it with a ResponseError on
{id: req.id, error: E}, and takes no action on a message whose id differs
from req.id.  The hypotheses state that req.id is a primitive (strictly
equal to itself) and that otherId is strictly different. -/
theorem C7_request_response_correlation (s : ClientState) (req : Req) (cb : Bool)
    (resV errV otherId : JsValue)
    (hself : jsStrictEq req.id req.id = true)
    (hother : jsStrictEq otherId req.id = false) :
    sendRequest s true req cb =
      ({ s with timeoutExceededData := some req,
                pending := s.pending ++ [⟨req, cb⟩],
                sentMessages := s.sentMessages ++ [req] }, .pendingRegistered) ∧
    filterMessage (some (.vObj (.cons "id" req.id (.cons "result" resV .nil)))) req.id cb =
      .ok ⟨if cb then [.vObj (.cons "id" req.id (.cons "result" resV .nil))] else [],
          some (.resolveWith (.responseResult req.id resV))⟩ ∧
    filterMessage (some (.vObj (.cons "id" req.id (.cons "error" errV .nil)))) req.id cb =
      .ok ⟨if cb then [.vObj (.cons "id" req.id (.cons "error" errV .nil))] else [],
          some (.rejectWith (.responseError req.id errV))⟩ ∧
    filterMessage (some (.vObj (.cons "id" otherId (.cons "result" resV .nil)))) req.id cb =
      .ok ⟨[], none⟩ := by
  refine ⟨rfl, ?_, ?_, ?_⟩
  · exact filterMessage_obj_result (.cons "id" req.id (.cons "result" resV .nil))
      req.id cb hself rfl rfl
  · exact filterMessage_obj_error (.cons "id" req.id (.cons "error" errV .nil))
      req.id cb hself rfl
  · exact filterMessage_id_mismatch (.vObj (.cons "id" otherId (.cons "result" resV .nil)))
      req.id cb otherId rfl hother

/-- C7 witness: the statement evaluated at a concrete request, result value,
error value and mismatching id. -/
theorem C7_request_response_correlation_wit :
    filterMessage (some (.vObj (.cons "id" (.vStr "1") (.cons "result" (.vNum 5) .nil))))
        (.vStr "1") false =
      .ok ⟨[], some (.resolveWith (.responseResult (.vStr "1") (.vNum 5)))⟩ ∧
    filterMessage (some (.vObj (.cons "id" (.vStr "2") (.cons "result" (.vNum 5) .nil))))
        (.vStr "1") false =
      .ok ⟨[], none⟩ :=
  ⟨(C7_request_response_correlation initialState ⟨.vStr "1", "m", .vUndefined⟩ false
      (.vNum 5) (.vStr "e") (.vStr "2") (by decide) (by decide)).2.1,
   (C7_request_response_correlation initialState ⟨.vStr "1", "m", .vUndefined⟩ false
      (.vNum 5) (.vStr "e") (.vStr "2") (by decide) (by decide)).2.2.2⟩

/-- C8: connect emits "connecting" first and synchronously; when the
transport's connect succeeds it emits "connected" after "connecting" and
then resolves, and when the transport's connect fails it rejects with the
transport's error verbatim with no further lifecycle emission. -/
theorem C8_connect_lifecycle {α : Type} (e : α) :
    connect (.ok () : Except α Unit) = ([.connecting, .connected], .ok ()) ∧
    connect (.error e : Except α Unit) = ([.connecting], .error e) :=
  ⟨rfl, rfl⟩

/-- C8 witness: the statement evaluated at a concrete transport error. -/
theorem C8_connect_lifecycle_wit :
    connect (.ok () : Except Nat Unit) = ([.connecting, .connected], .ok ()) ∧
    connect (.error 7 : Except Nat Unit) = ([.connecting], .error 7) :=
  C8_connect_lifecycle 7

/-- C9: sendEvent is a plain synchronous total function — when connected it
hands evt to the transport's send and returns the NO_ERROR constant, and
when disconnected it performs no send and returns the INVALID_STATE_ERR
constant. -/
theorem C9_sendEvent_signalling (s : ClientState) (evt : JsValue) :
    sendEvent s true evt = ([evt], noErrorVal) ∧
    sendEvent s false evt = ([], invalidStateErrVal s.invalidStateErrData) :=
  ⟨rfl, rfl⟩

/-- C9 witness: the statement evaluated at a concrete event from the initial
state. -/
theorem C9_sendEvent_signalling_wit :
    sendEvent initialState true (.vStr "e") = ([.vStr "e"], noErrorVal) ∧
    sendEvent initialState false (.vStr "e") = ([], invalidStateErrVal none) :=
  C9_sendEvent_signalling initialState (.vStr "e")

/-- C10: every sendRequest call writes the request into the shared
TIMEOUT_EXCEEDED singleton's data cell before the connectivity check (so
even a disconnected call performs the write), and after two consecutive
calls with r1 then r2 the entry for r1 is still pending while the singleton
— and hence any timeout rejection drawn from it — carries r2, the most
recent request. -/
theorem C10_shared_timeout_singleton (s : ClientState) (b1 b2 cb1 cb2 : Bool)
    (r1 r2 : Req) :
    ((sendRequest s b1 r1 cb1).1).timeoutExceededData = some r1 ∧
    (⟨r1, cb1⟩ : PendingEntry) ∈
      ((sendRequest ((sendRequest s true r1 cb1).1) b2 r2 cb2).1).pending ∧
    (timeoutExceededVal (((sendRequest ((sendRequest s true r1 cb1).1) b2 r2
        cb2).1).timeoutExceededData)).data = some r2 := by
  refine ⟨?_, ?_, ?_⟩
  · cases b1 <;> rfl
  · cases b2 <;> simp [sendRequest]
  · cases b2 <;> rfl

/-- C10 witness: the statement evaluated at concrete requests with the
second call disconnected. -/
theorem C10_shared_timeout_singleton_wit :
    ((sendRequest initialState false ⟨.vStr "1", "a", .vUndefined⟩ false).1).timeoutExceededData =
      some ⟨.vStr "1", "a", .vUndefined⟩ ∧
    (⟨⟨.vStr "1", "a", .vUndefined⟩, false⟩ : PendingEntry) ∈
      ((sendRequest ((sendRequest initialState true ⟨.vStr "1", "a", .vUndefined⟩ false).1)
        false ⟨.vStr "2", "b", .vUndefined⟩ false).1).pending ∧
    (timeoutExceededVal (((sendRequest ((sendRequest initialState true
        ⟨.vStr "1", "a", .vUndefined⟩ false).1) false ⟨.vStr "2", "b", .vUndefined⟩
        false).1).timeoutExceededData)).data = some ⟨.vStr "2", "b", .vUndefined⟩ :=
  C10_shared_timeout_singleton initialState false false false false
    ⟨.vStr "1", "a", .vUndefined⟩ ⟨.vStr "2", "b", .vUndefined⟩

end JsonRpcClient
